import Mathlib

/-!
Shallow embedding of GameJS (src/Helper.js): a small browser game support
library consisting of a drawing surface wrapper (Canvas), an animation loop
driver (Animate), a keyboard input tracker (InputHandler), a sprite record
(Sprite), an axis-aligned bounding-box intersection test (AABBIntersect) and
a frames-per-second counter (FPSCounter).

Modelling conventions:
- JS key codes and pixel coordinates are integers (`Int`); times are
  millisecond timestamps (`Nat`, as returned by `Date.now()`).
- A JS object used as a map from key code to `true` (with `delete` for
  removal) is modelled as a characteristic function `Int → Bool`; a missing
  property reads as the falsy `false`.
- A JS property access that can yield `undefined` (the Sprite draw path)
  is modelled as `Option Int`, with `none` standing for `undefined`.
- The host's frame scheduler (`requestAnimationFrame`) is modelled by a
  count of registered-but-not-yet-fired callbacks, and a `hostTick`
  operation that fires one of them.
-/

/-- An axis-aligned rectangle `{x, y, w, h}` as consumed by `AABBIntersect`. -/
structure Rect where
  x : Int
  y : Int
  w : Int
  h : Int
deriving DecidableEq, Repr

/-- src/Helper.js lines 195-197:
`return a.x < b.x + b.w && b.x < a.x + a.w && a.y < b.y + b.h && b.y < a.y + a.h;` -/
def AABBIntersect (a b : Rect) : Bool :=
  decide (a.x < b.x + b.w) && decide (b.x < a.x + a.w) &&
    decide (a.y < b.y + b.h) && decide (b.y < a.y + a.h)

theorem AABBIntersect_eq_true_iff (a b : Rect) :
    AABBIntersect a b = true ↔
      (a.x < b.x + b.w ∧ b.x < a.x + a.w ∧ a.y < b.y + b.h ∧ b.y < a.y + a.h) := by
  simp [AABBIntersect, and_assoc]

/-- The `InputHandler` state: the two key-code maps `down` and `pressed`
(src/Helper.js lines 137-138).  A key code is "in the map" when the function
returns `true`; `delete` sets it back to `false`. -/
structure InputHandler where
  down : Int → Bool
  pressed : Int → Bool

/-- A freshly constructed handler: `this.down = {}; this.pressed = {};`. -/
def InputHandler.init : InputHandler :=
  { down := fun _ => false, pressed := fun _ => false }

/-- The `keydown` listener (src/Helper.js lines 142-144):
`_this.down[evt.keyCode] = true;` — it writes only the `down` map. -/
def keydownEvt (k : Int) (s : InputHandler) : InputHandler :=
  { s with down := fun j => if j = k then true else s.down j }

/-- The `keyup` listener (src/Helper.js lines 146-149):
`delete _this.down[evt.keyCode]; delete _this.pressed[evt.keyCode];`. -/
def keyupEvt (k : Int) (s : InputHandler) : InputHandler :=
  { down := fun j => if j = k then false else s.down j,
    pressed := fun j => if j = k then false else s.pressed j }

/-- `InputHandler.prototype.isDown` (src/Helper.js lines 158-160):
`return this.down[code];` — a pure query (a missing key reads falsy). -/
def InputHandler.isDown (s : InputHandler) (k : Int) : Bool :=
  s.down k

/-- `InputHandler.prototype.isPressed` (src/Helper.js lines 179-187):
if `pressed[code]` is truthy return `false`; else if `down[code]` is truthy,
set `pressed[code] = true` and return it (`true`); else return `false`.
Returns the value together with the possibly mutated handler state. -/
def InputHandler.isPressed (s : InputHandler) (k : Int) : Bool × InputHandler :=
  if s.pressed k then
    (false, s)
  else if s.down k then
    (true, { s with pressed := fun j => if j = k then true else s.pressed j })
  else
    (false, s)

/-- One interaction with the handler: a platform keyboard event or one of the
two public queries (`isDown` is pure; `isPressed` may mutate `pressed`). -/
inductive Op where
  | keydown : Int → Op
  | keyup : Int → Op
  | queryDown : Int → Op
  | queryPressed : Int → Op
deriving DecidableEq, Repr

/-- The state transformation performed by one interaction. -/
def Op.run : Op → InputHandler → InputHandler
  | .keydown k, s => keydownEvt k s
  | .keyup k, s => keyupEvt k s
  | .queryDown _, s => s
  | .queryPressed k, s => (s.isPressed k).2

/-- Run a sequence of interactions left to right. -/
def runOps (ops : List Op) (s : InputHandler) : InputHandler :=
  ops.foldl (fun s o => o.run s) s

/-- Whether the interaction is a key-down or key-up event for key `k`. -/
def Op.touchesKey : Op → Int → Bool
  | .keydown j, k => decide (j = k)
  | .keyup j, k => decide (j = k)
  | .queryDown _, _ => false
  | .queryPressed _, _ => false

/-- Whether the interaction involves key `k` at all (event or query). -/
def Op.mentionsKey : Op → Int → Bool
  | .keydown j, k => decide (j = k)
  | .keyup j, k => decide (j = k)
  | .queryDown j, k => decide (j = k)
  | .queryPressed j, k => decide (j = k)

/-- A handler state reachable from the fresh handler by some interaction
sequence. -/
def Reachable (s : InputHandler) : Prop :=
  ∃ ops : List Op, s = runOps ops InputHandler.init

/-- A `Sprite` as built by the constructor (src/Helper.js lines 210-216):
`this.img = img; this.x = x; this.y = y; this.width = w; this.height = h;`.
Note the constructor stores the dimensions under the property names
`width` and `height`. -/
structure Sprite where
  img : Nat
  x : Int
  y : Int
  width : Int
  height : Int
deriving DecidableEq, Repr

/-- The constructor call `new Sprite(img, x, y, w, h)`. -/
def Sprite.make (img : Nat) (x y w h : Int) : Sprite :=
  { img := img, x := x, y := y, width := w, height := h }

/-- JS property read of a numeric property on a sprite object: the
constructor defined `x`, `y`, `width`, `height`; reading any other property
name (in particular `w` or `h`) yields `undefined`, modelled as `none`. -/
def Sprite.getProp (s : Sprite) : String → Option Int
  | "x" => some s.x
  | "y" => some s.y
  | "width" => some s.width
  | "height" => some s.height
  | _ => none

/-- The argument tuple of a `ctx.drawImage(img, sx, sy, sw, sh, dx, dy, dw, dh)`
call; arguments that the caller computed from a possibly-undefined property
are `Option Int` (`none` = `undefined`). -/
structure DrawImageCall where
  img : Nat
  sx : Option Int
  sy : Option Int
  sw : Option Int
  sh : Option Int
  dx : Option Int
  dy : Option Int
  dw : Option Int
  dh : Option Int
deriving DecidableEq, Repr

/-- `Canvas.prototype.drawSprite` (src/Helper.js lines 55-59):
`this.ctx.drawImage(sprite.img, sprite.x, sprite.y, sprite.w, sprite.h, x, y,
sprite.w, sprite.h);` — it reads the properties `w` and `h` off the sprite. -/
def Canvas.drawSprite (sprite : Sprite) (x y : Int) : DrawImageCall :=
  { img := sprite.img,
    sx := sprite.getProp "x", sy := sprite.getProp "y",
    sw := sprite.getProp "w", sh := sprite.getProp "h",
    dx := some x, dy := some y,
    dw := sprite.getProp "w", dh := sprite.getProp "h" }

/-- `Sprite.prototype.draw` (src/Helper.js lines 225-229):
`ctx.drawImage(this.img, this.x, this.y, this.w, this.h, x, y, this.w,
this.h);` — the same property reads as `Canvas.drawSprite`. -/
def Sprite.draw (s : Sprite) (x y : Int) : DrawImageCall :=
  { img := s.img,
    sx := s.getProp "x", sy := s.getProp "y",
    sw := s.getProp "w", sh := s.getProp "h",
    dx := some x, dy := some y,
    dw := s.getProp "w", dh := s.getProp "h" }

/-- The `FPSCounter` state (src/Helper.js lines 242-247): `current`, `last`,
and the window start `lastUpdated` (a `Date.now()` millisecond timestamp). -/
structure FPSCounter where
  current : Nat
  last : Nat
  lastUpdated : Nat
deriving DecidableEq, Repr

/-- The constructor `new FPSCounter(ctx)` called at time `now`:
`this.current = 0; this.last = 0; this.lastUpdated = Date.now();`. -/
def FPSCounter.new (now : Nat) : FPSCounter :=
  { current := 0, last := 0, lastUpdated := now }

/-- `FPSCounter.prototype.update` (src/Helper.js lines 269-276) with the
clock reading `now`: `this.current++;` then, if
`Date.now() - this.lastUpdated >= 1000`, `this.last = this.current;
this.current = 0; this.lastUpdated = Date.now();`. -/
def FPSCounter.update (c : FPSCounter) (now : Nat) : FPSCounter :=
  let cur := c.current + 1
  if now - c.lastUpdated ≥ 1000 then
    { current := 0, last := cur, lastUpdated := now }
  else
    { current := cur, last := c.last, lastUpdated := c.lastUpdated }

/-- A sequence of `update()` calls at the given clock readings. -/
def FPSCounter.updates (c : FPSCounter) (ts : List Nat) : FPSCounter :=
  ts.foldl FPSCounter.update c

/-- The animation driver's world: the user-visible state `user : σ`
transformed by the game loop callback, plus the number of frame callbacks
currently registered with the host scheduler and not yet fired. -/
structure AnimHost (σ : Type) where
  user : σ
  pending : Nat
deriving DecidableEq, Repr

/-- `raf(run, canvas)` (src/Helper.js line 91): register one future frame
notification with the host scheduler. -/
def rafRegister {σ : Type} (h : AnimHost σ) : AnimHost σ :=
  { h with pending := h.pending + 1 }

/-- The callback `run()` (src/Helper.js lines 89-92): `loop(); raf(run, canvas);`
— invoke the game loop once, then register exactly one future notification. -/
def runFrame {σ : Type} (loop : σ → σ) (h : AnimHost σ) : AnimHost σ :=
  rafRegister { h with user := loop h.user }

/-- `Animate(loop, canvas)` (src/Helper.js lines 74-94): after resolving
`raf`, it calls `run()` once immediately and synchronously. -/
def Animate {σ : Type} (loop : σ → σ) (h : AnimHost σ) : AnimHost σ :=
  runFrame loop h

/-- The host scheduler delivering one frame notification: if a callback is
registered, consume the registration and invoke `run()` (which re-registers);
with nothing registered, nothing happens. -/
def hostTick {σ : Type} (loop : σ → σ) (h : AnimHost σ) : AnimHost σ :=
  if h.pending = 0 then h else runFrame loop { h with pending := h.pending - 1 }

/-- `t` successive frame notifications from the host scheduler. -/
def hostTicks {σ : Type} (loop : σ → σ) (h : AnimHost σ) : Nat → AnimHost σ
  | 0 => h
  | t + 1 => hostTick loop (hostTicks loop h t)

/-- The counter callback of the Animation Driver claim: increment by one. -/
def countLoop : Nat → Nat := fun n => n + 1

theorem isPressed_fst_of_pressed (s : InputHandler) (k : Int)
    (h : s.pressed k = true) : (s.isPressed k).1 = false := by
  simp [InputHandler.isPressed, h]

theorem pressed_stays_run (k : Int) (o : Op) (ho : o ≠ Op.keyup k)
    (s : InputHandler) (h : s.pressed k = true) : (o.run s).pressed k = true := by
  cases o with
  | keydown j => simpa [Op.run, keydownEvt] using h
  | keyup j =>
    have hj : k ≠ j := fun e => ho (by rw [e])
    simpa [Op.run, keyupEvt, hj] using h
  | queryDown j => simpa [Op.run] using h
  | queryPressed j =>
    by_cases hp : s.pressed j
    · simpa [Op.run, InputHandler.isPressed, hp] using h
    · by_cases hd : s.down j
      · by_cases e : k = j
        · exact absurd (e ▸ h) hp
        · simpa [Op.run, InputHandler.isPressed, hp, hd, e] using h
      · simpa [Op.run, InputHandler.isPressed, hp, hd] using h

theorem pressed_stays_runOps (k : Int) (ops : List Op)
    (hops : ∀ o ∈ ops, o ≠ Op.keyup k) (s : InputHandler)
    (h : s.pressed k = true) : (runOps ops s).pressed k = true := by
  induction ops generalizing s with
  | nil => exact h
  | cons o rest ih =>
    show (runOps rest (o.run s)).pressed k = true
    exact ih (fun o' ho' => hops o' (List.mem_cons_of_mem _ ho')) _
      (pressed_stays_run k o (hops o (List.mem_cons_self _ _)) s h)

/-- C1: Edge-trigger law of the Input Handler.  From any handler state in
which key `k` is up (not in `down`, not in `pressed`), a single key-down
event for `k` makes the first `isPressed(k)` call return `true`, and every
subsequent `isPressed(k)` call — with any interleaved queries and events
that are not key-down/key-up events for `k` — returns `false`. -/
theorem C1_edge_trigger (s : InputHandler) (k : Int)
    (hdown : s.down k = false) (hpressed : s.pressed k = false)
    (ops : List Op) (hops : ∀ o ∈ ops, o.touchesKey k = false) :
    ((keydownEvt k s).isPressed k).1 = true ∧
    ((runOps ops ((keydownEvt k s).isPressed k).2).isPressed k).1 = false := by
  constructor
  · simp [InputHandler.isPressed, keydownEvt, hpressed]
  · have h1 : (((keydownEvt k s).isPressed k).2).pressed k = true := by
      simp [InputHandler.isPressed, keydownEvt, hpressed]
    have hops' : ∀ o ∈ ops, o ≠ Op.keyup k := by
      intro o ho e
      have := hops o ho
      rw [e] at this
      simp [Op.touchesKey] at this
    exact isPressed_fst_of_pressed _ k (pressed_stays_runOps k ops hops' _ h1)

/-- C1 witness: from the fresh handler, key-down for code 32 makes the first
`isPressed(32)` return `true`; after a further key-down for 65 and a second
`isPressed(32)` query, a third `isPressed(32)` still returns `false`. -/
theorem C1_edge_trigger_witness :
    ((keydownEvt 32 InputHandler.init).isPressed 32).1 = true ∧
    ((runOps [Op.keydown 65, Op.queryPressed 32]
        ((keydownEvt 32 InputHandler.init).isPressed 32).2).isPressed 32).1 = false :=
  C1_edge_trigger InputHandler.init 32 (by decide) (by decide)
    [Op.keydown 65, Op.queryPressed 32] (by decide)

/-- C5: Re-arm law.  After `isPressed(k)` has returned `true` on state `s`,
a key-up event for `k` followed by a key-down event for `k` makes the next
`isPressed(k)` call return `true` again. -/
theorem C5_rearm (s : InputHandler) (k : Int) (h : (s.isPressed k).1 = true) :
    ((keydownEvt k (keyupEvt k (s.isPressed k).2)).isPressed k).1 = true := by
  simp [InputHandler.isPressed, keydownEvt, keyupEvt]

/-- C5 witness at key code 32, starting from the fresh handler after one
key-down event. -/
theorem C5_rearm_witness :
    ((keydownEvt 32
        (keyupEvt 32 ((keydownEvt 32 InputHandler.init).isPressed 32).2)).isPressed
      32).1 = true :=
  C5_rearm (keydownEvt 32 InputHandler.init) 32 (by decide)

/-- The Input Handler state invariant: every key in `pressed` is in `down`. -/
def PressedSubDown (s : InputHandler) : Prop :=
  ∀ k : Int, s.pressed k = true → s.down k = true

theorem pressedSubDown_run (o : Op) (s : InputHandler)
    (h : PressedSubDown s) : PressedSubDown (o.run s) := by
  cases o with
  | keydown j =>
    intro k hk
    have := h k (by simpa [Op.run, keydownEvt] using hk)
    by_cases e : k = j <;> simp [Op.run, keydownEvt, e, this]
  | keyup j =>
    intro k hk
    by_cases e : k = j
    · simp [Op.run, keyupEvt, e] at hk
    · have hk' : s.pressed k = true := by simpa [Op.run, keyupEvt, e] using hk
      simp [Op.run, keyupEvt, e, h k hk']
  | queryDown j => exact h
  | queryPressed j =>
    by_cases hp : s.pressed j
    · simpa [Op.run, InputHandler.isPressed, hp] using h
    · by_cases hd : s.down j
      · intro k hk
        by_cases e : k = j
        · simpa [Op.run, InputHandler.isPressed, hp, hd, e] using hd
        · have hk' : s.pressed k = true := by
            simpa [Op.run, InputHandler.isPressed, hp, hd, e] using hk
          simpa [Op.run, InputHandler.isPressed, hp, hd] using h k hk'
      · simpa [Op.run, InputHandler.isPressed, hp, hd] using h

theorem pressedSubDown_runOps (ops : List Op) (s : InputHandler)
    (h : PressedSubDown s) : PressedSubDown (runOps ops s) := by
  induction ops generalizing s with
  | nil => exact h
  | cons o rest ih =>
    show PressedSubDown (runOps rest (o.run s))
    exact ih _ (pressedSubDown_run o s h)

/-- C6: in every handler state reachable from the fresh handler by any
interleaving of key-down events, key-up events and `isDown`/`isPressed`
queries, a key code present in `pressed` is also present in `down`. -/
theorem C6_pressed_subset_down (s : InputHandler) (h : Reachable s)
    (k : Int) (hk : s.pressed k = true) : s.down k = true := by
  obtain ⟨ops, rfl⟩ := h
  refine pressedSubDown_runOps ops InputHandler.init ?_ k hk
  intro j hj
  simp [InputHandler.init] at hj

/-- C6 witness: the reachable state after key-down 32 and one `isPressed(32)`
query has 32 in `pressed`, and the theorem yields that 32 is in `down`. -/
theorem C6_pressed_subset_down_witness :
    (runOps [Op.keydown 32, Op.queryPressed 32] InputHandler.init).pressed 32 = true ∧
    (runOps [Op.keydown 32, Op.queryPressed 32] InputHandler.init).down 32 = true :=
  ⟨by decide,
    C6_pressed_subset_down (runOps [Op.keydown 32, Op.queryPressed 32] InputHandler.init)
      ⟨[Op.keydown 32, Op.queryPressed 32], rfl⟩ 32 (by decide)⟩

theorem unseen_stays_run (k : Int) (o : Op) (ho : o.mentionsKey k = false)
    (s : InputHandler) (hd : s.down k = false) (hp : s.pressed k = false) :
    (o.run s).down k = false ∧ (o.run s).pressed k = false := by
  cases o with
  | keydown j =>
    have e : k ≠ j := fun e => by simp [Op.mentionsKey, e] at ho
    exact ⟨by simpa [Op.run, keydownEvt, e] using hd, by simpa [Op.run, keydownEvt] using hp⟩
  | keyup j =>
    constructor
    · by_cases e : k = j <;> simpa [Op.run, keyupEvt, e] using hd
    · by_cases e : k = j <;> simpa [Op.run, keyupEvt, e] using hp
  | queryDown j => exact ⟨hd, hp⟩
  | queryPressed j =>
    have e : k ≠ j := fun e => by simp [Op.mentionsKey, e] at ho
    by_cases hpj : s.pressed j
    · exact ⟨by simpa [Op.run, InputHandler.isPressed, hpj] using hd,
        by simpa [Op.run, InputHandler.isPressed, hpj] using hp⟩
    · by_cases hdj : s.down j
      · exact ⟨by simpa [Op.run, InputHandler.isPressed, hpj, hdj] using hd,
          by simpa [Op.run, InputHandler.isPressed, hpj, hdj, e] using hp⟩
      · exact ⟨by simpa [Op.run, InputHandler.isPressed, hpj, hdj] using hd,
          by simpa [Op.run, InputHandler.isPressed, hpj, hdj] using hp⟩

theorem unseen_stays_runOps (k : Int) (ops : List Op)
    (hops : ∀ o ∈ ops, o.mentionsKey k = false) (s : InputHandler)
    (hd : s.down k = false) (hp : s.pressed k = false) :
    (runOps ops s).down k = false ∧ (runOps ops s).pressed k = false := by
  induction ops generalizing s with
  | nil => exact ⟨hd, hp⟩
  | cons o rest ih =>
    have step := unseen_stays_run k o (hops o (List.mem_cons_self _ _)) s hd hp
    show (runOps rest (o.run s)).down k = false ∧ (runOps rest (o.run s)).pressed k = false
    exact ih (fun o' ho' => hops o' (List.mem_cons_of_mem _ ho')) _ step.1 step.2

/-- C7: for a key code `k` never mentioned — no key-down or key-up event for
`k` was delivered and no query about `k` was made — `isDown(k)` returns
`false` and `isPressed(k)` returns `false`. -/
theorem C7_unseen_key (ops : List Op) (k : Int)
    (hops : ∀ o ∈ ops, o.mentionsKey k = false) :
    (runOps ops InputHandler.init).isDown k = false ∧
    ((runOps ops InputHandler.init).isPressed k).1 = false := by
  have h := unseen_stays_runOps k ops hops InputHandler.init rfl rfl
  exact ⟨h.1, by simp [InputHandler.isPressed, h.1, h.2]⟩

/-- C7 witness: after a session touching only key code 65, both queries for
the never-seen key code 32 return `false`. -/
theorem C7_unseen_key_witness :
    (runOps [Op.keydown 65, Op.queryPressed 65, Op.keyup 65] InputHandler.init).isDown 32
        = false ∧
    ((runOps [Op.keydown 65, Op.queryPressed 65, Op.keyup 65] InputHandler.init).isPressed
        32).1 = false :=
  C7_unseen_key [Op.keydown 65, Op.queryPressed 65, Op.keyup 65] 32 (by decide)

/-- C10 (implicit): a key-down event writes only the `down` map, leaving
`pressed` untouched; hence once `k` is in `pressed`, any further interaction
sequence containing no key-up event for `k` — host auto-repeat key-downs for
`k` included — leaves every later `isPressed(k)` call returning `false`. -/
theorem C10_autorepeat_no_rearm (s : InputHandler) (k : Int)
    (hk : s.pressed k = true) (ops : List Op)
    (hops : ∀ o ∈ ops, o ≠ Op.keyup k) :
    (keydownEvt k s).pressed = s.pressed ∧
    ((runOps ops s).isPressed k).1 = false :=
  ⟨rfl, isPressed_fst_of_pressed _ k (pressed_stays_runOps k ops hops s hk)⟩

/-- C10 witness: with 32 consumed (in `pressed`), an auto-repeat key-down for
32 and another `isPressed(32)` query still leave `isPressed(32)` false. -/
theorem C10_autorepeat_no_rearm_witness :
    (keydownEvt 32 (runOps [Op.keydown 32, Op.queryPressed 32] InputHandler.init)).pressed
        = (runOps [Op.keydown 32, Op.queryPressed 32] InputHandler.init).pressed ∧
    ((runOps [Op.keydown 32, Op.queryPressed 32]
        (runOps [Op.keydown 32, Op.queryPressed 32] InputHandler.init)).isPressed 32).1
      = false :=
  C10_autorepeat_no_rearm (runOps [Op.keydown 32, Op.queryPressed 32] InputHandler.init)
    32 (by decide) [Op.keydown 32, Op.queryPressed 32] (by decide)

/-- C8: `AABBIntersect` is symmetric: swapping the two rectangles only
reorders the four strict comparisons. -/
theorem C8_intersect_symm (a b : Rect) : AABBIntersect a b = AABBIntersect b a := by
  rw [Bool.eq_iff_iff, AABBIntersect_eq_true_iff, AABBIntersect_eq_true_iff]
  tauto

/-- C2 counterexample: the zero-width rectangle `{x:5, y:0, w:0, h:10}` lies
strictly inside `{x:0, y:0, w:10, h:10}` on both axes, so `AABBIntersect`
returns `true` for it, contradicting "degenerate rectangles never intersect
anything". -/
theorem C2_degenerate_counterexample :
    (Rect.mk 5 0 0 10).w = 0 ∧
      AABBIntersect (Rect.mk 5 0 0 10) (Rect.mk 0 0 10 10) = true ∧
      AABBIntersect (Rect.mk 0 0 10 10) (Rect.mk 5 0 0 10) = true := by
  decide

/-- C2 amended: two rectangles that are degenerate on a common axis (both of
zero width, or both of zero height) never intersect, in either argument
order; in particular a degenerate rectangle never intersects itself. -/
theorem C2_same_axis_degenerate (a b : Rect)
    (h : (a.w = 0 ∧ b.w = 0) ∨ (a.h = 0 ∧ b.h = 0)) :
    AABBIntersect a b = false ∧ AABBIntersect b a = false := by
  constructor <;>
  · rw [Bool.eq_false_iff, Ne, AABBIntersect_eq_true_iff]
    rcases h with ⟨h1, h2⟩ | ⟨h1, h2⟩ <;> omega

/-- C2 witness: two distinct zero-width segments do not intersect. -/
theorem C2_same_axis_degenerate_witness :
    AABBIntersect (Rect.mk 0 0 0 5) (Rect.mk 3 0 0 5) = false ∧
      AABBIntersect (Rect.mk 3 0 0 5) (Rect.mk 0 0 0 5) = false :=
  C2_same_axis_degenerate (Rect.mk 0 0 0 5) (Rect.mk 3 0 0 5) (Or.inl ⟨rfl, rfl⟩)

/-- C3 counterexample: counter constructed at time 0, one `update()` at time
500 (inside the window, so `n = 1`), then the rollover `update()` at time
1000.  The code first increments `current` to 2 and only then copies it into
`last`, so `last = 2`, not the claimed `n = 1`. -/
theorem C3_rollover_counterexample :
    ((FPSCounter.new 0).update 500).last = 0 ∧
      ((FPSCounter.new 0).update 500).current = 1 ∧
      (((FPSCounter.new 0).update 500).update 1000).last = 2 ∧
      (((FPSCounter.new 0).update 500).update 1000).last ≠ 1 := by
  decide

theorem updates_in_window (t0 l : Nat) (ts : List Nat)
    (hts : ∀ t ∈ ts, t - t0 < 1000) (m : Nat) :
    FPSCounter.updates ⟨m, l, t0⟩ ts = ⟨m + ts.length, l, t0⟩ := by
  induction ts generalizing m with
  | nil => rfl
  | cons t rest ih =>
    have ht : ¬(t - t0 ≥ 1000) := by
      have := hts t (List.mem_cons_self _ _)
      omega
    show FPSCounter.updates (FPSCounter.update ⟨m, l, t0⟩ t) rest = _
    rw [show FPSCounter.update ⟨m, l, t0⟩ t = ⟨m + 1, l, t0⟩ by
      simp [FPSCounter.update, ht]]
    rw [ih (fun t' ht' => hts t' (List.mem_cons_of_mem _ ht')) (m + 1)]
    simp [List.length_cons]
    omega

/-- C3 amended: with the counter constructed at `t0` and updated at clock
readings `ts`, all within the window (less than 1000ms past `t0`), `last`
is `0` and `current` is `ts.length`; one further `update()` at a reading
`tr` at least 1000ms past `t0` sets `last` to `ts.length + 1` — the prior
window's frames plus the rollover call's own increment, which the code
performs before closing the window — and resets `current` to `0` and
`lastUpdated` to `tr`. -/
theorem C3_window_rollover (t0 : Nat) (ts : List Nat)
    (hts : ∀ t ∈ ts, t - t0 < 1000) (tr : Nat) (hr : tr - t0 ≥ 1000) :
    (FPSCounter.updates (FPSCounter.new t0) ts).last = 0 ∧
    (FPSCounter.updates (FPSCounter.new t0) ts).current = ts.length ∧
    ((FPSCounter.updates (FPSCounter.new t0) ts).update tr).last = ts.length + 1 ∧
    ((FPSCounter.updates (FPSCounter.new t0) ts).update tr).current = 0 ∧
    ((FPSCounter.updates (FPSCounter.new t0) ts).update tr).lastUpdated = tr := by
  have h1 : FPSCounter.updates (FPSCounter.new t0) ts = ⟨ts.length, 0, t0⟩ := by
    simpa [FPSCounter.new] using updates_in_window t0 0 ts hts 0
  rw [h1]
  simp [FPSCounter.update, hr]

/-- C3 witness: constructed at 0, frames at 100 and 200, rollover at 1500:
`last` becomes 3 (= 2 + 1), `current` 0, `lastUpdated` 1500. -/
theorem C3_window_rollover_witness :
    (FPSCounter.updates (FPSCounter.new 0) [100, 200]).last = 0 ∧
    (FPSCounter.updates (FPSCounter.new 0) [100, 200]).current = 2 ∧
    ((FPSCounter.updates (FPSCounter.new 0) [100, 200]).update 1500).last = 3 ∧
    ((FPSCounter.updates (FPSCounter.new 0) [100, 200]).update 1500).current = 0 ∧
    ((FPSCounter.updates (FPSCounter.new 0) [100, 200]).update 1500).lastUpdated = 1500 :=
  C3_window_rollover 0 [100, 200] (by decide) 1500 (by decide)

/-- C4: the `Sprite` constructor stores the dimensions as `width`/`height`,
but both draw paths read `sprite.w`/`sprite.h`, which were never assigned:
the `drawImage` call receives `undefined` (`none`) for all four dimension
arguments instead of the stored width 10 and height 20. -/
theorem C4_draw_reads_unset_dims :
    (Canvas.drawSprite (Sprite.make 7 1 2 10 20) 3 4).sw = none ∧
    (Canvas.drawSprite (Sprite.make 7 1 2 10 20) 3 4).sh = none ∧
    (Canvas.drawSprite (Sprite.make 7 1 2 10 20) 3 4).dw = none ∧
    (Canvas.drawSprite (Sprite.make 7 1 2 10 20) 3 4).dh = none ∧
    ((Sprite.make 7 1 2 10 20).draw 3 4).sw = none ∧
    ((Sprite.make 7 1 2 10 20).draw 3 4).dw = none ∧
    (Sprite.make 7 1 2 10 20).width = 10 ∧
    (Sprite.make 7 1 2 10 20).height = 20 := by
  decide

theorem hostTicks_animate_count (t : Nat) :
    hostTicks countLoop (Animate countLoop ⟨0, 0⟩) t = ⟨t + 1, 1⟩ := by
  induction t with
  | zero => rfl
  | succ n ih =>
    show hostTick countLoop (hostTicks countLoop (Animate countLoop ⟨0, 0⟩) n) = _
    rw [ih]
    rfl

/-- C9: the Animation Driver, given the incrementing callback on counter 0,
invokes the callback once immediately (`Animate` = the initial synchronous
`run()`), keeps exactly one frame registration pending, and after `m` total
callback invocations — the initial one plus `m - 1` host ticks — the counter
equals `m`. -/
theorem C9_driver_counter (m : Nat) (hm : 1 ≤ m) :
    (hostTicks countLoop (Animate countLoop ⟨0, 0⟩) (m - 1)).user = m ∧
    (hostTicks countLoop (Animate countLoop ⟨0, 0⟩) (m - 1)).pending = 1 := by
  rw [hostTicks_animate_count (m - 1)]
  exact ⟨by show m - 1 + 1 = m; omega, rfl⟩

/-- C9 witness: after the initial invocation and two host ticks (three
invocations in total), the counter reads 3 and one registration is pending. -/
theorem C9_driver_counter_witness :
    (hostTicks countLoop (Animate countLoop ⟨0, 0⟩) 2).user = 3 ∧
    (hostTicks countLoop (Animate countLoop ⟨0, 0⟩) 2).pending = 1 :=
  C9_driver_counter 3 (by decide)
